import Mathlib

/-!
Shallow embedding of src/app/dashboard/faculty/classes/create/page.tsx
(the CreateClass page of the cse471 dashboard).

Modelling choices:
* JavaScript date values are embedded as integers (milliseconds since the
  epoch).  `new Date(s)` for a string `s` is an oracle
  `parse : String → Option Int`: `none` models an Invalid Date, on which
  `toISOString()` throws (the inner try/catch of handleSubmit, lines
  117-128).  `toISOString` itself is an oracle `iso : Int → String`.  The
  comparison on line 131 re-parses the two ISO strings; since the
  ECMAScript ISO round trip is exact, it is embedded as the comparison of
  the two millisecond values.
* The supabase client is embedded as oracles: the two read queries of
  fetchCourses are functions from their filter arguments to a
  `QueryResult`, and the insert of handleSubmit is a function from the row
  to an `InsertOutcome`.  The queries a run issues are recorded in the
  result records (`queries`, `inserts`).
* React state setters become fields of an explicit result record; the
  `router.push` on line 177 becomes the `redirect` field.
-/

/-- A user as delivered by useAuth (only the fields the page reads). -/
structure User where
  id : String
  role : String
deriving Repr, DecidableEq

/-- The message state of line 19: `{ text: "", type: "" }`.
`type` is a Lean keyword, so the field is named `mtype`. -/
structure Message where
  text : String
  mtype : String
deriving Repr, DecidableEq

/-- The formData state of lines 20-29. -/
structure FormData where
  courseId : String
  title : String
  description : String
  startDate : String
  startTime : String
  endDate : String
  endTime : String
  meetingLink : String
deriving Repr, DecidableEq

/-- The row inserted into class_sessions (the classData object of lines
137-147). -/
structure ClassRow where
  course_id : String
  title : String
  description : Option String
  start_time : String
  end_time : String
  meeting_link : Option String
  created_by : String
  reminder_sent : Bool
  updated_at : String
deriving Repr, DecidableEq

/-- Outcome of the supabase insert on line 150: either an error object or
the list of rows returned by `.select()`. -/
inductive InsertOutcome where
  | err (msg : String)
  | ok (data : List ClassRow)
deriving Repr, DecidableEq

/-- The component state read and written by handleSubmit. -/
structure SubmitState where
  formData : FormData
  message : Message
  submitting : Bool
deriving Repr, DecidableEq

/-- Everything handleSubmit leaves behind: final state, the insert
queries it issued (as the rows sent), and the navigation it requested. -/
structure SubmitResult where
  formData : FormData
  message : Message
  submitting : Bool
  inserts : List ClassRow
  redirect : Option String
deriving Repr, DecidableEq

/-- JavaScript `s || null` for a string `s`: the empty string is the only
falsy string, so it becomes null; used on lines 140 and 143. -/
def strOrNull (s : String) : Option String :=
  if s = "" then none else some s

/-- The required-field test of lines 102-109: `!formData.courseId || ...`;
for strings, `!s` is true exactly on the empty string. -/
def requiredMissing (fd : FormData) : Bool :=
  fd.courseId == "" || fd.title == "" || fd.startDate == "" ||
  fd.startTime == "" || fd.endDate == "" || fd.endTime == ""

/-- The classData object built on lines 137-147. -/
def buildClassData (u : User) (fd : FormData) (iso : Int → String)
    (now startMs endMs : Int) : ClassRow :=
  { course_id := fd.courseId
    title := fd.title
    description := strOrNull fd.description
    start_time := iso startMs
    end_time := iso endMs
    meeting_link := strOrNull fd.meetingLink
    created_by := u.id
    reminder_sent := false
    updated_at := iso now }

/-- Lines 149-187: issue the insert and handle its three outcomes
(error thrown on line 154, empty data thrown on line 158, success on
lines 161-178).  The catch on lines 179-184 formats the thrown message;
`error.message || "Unknown error"` never takes the right branch here
because both thrown messages are non-empty. -/
def doInsert (fd : FormData) (insert : ClassRow → InsertOutcome)
    (classData : ClassRow) : SubmitResult :=
  match insert classData with
  | .err m =>
      { formData := fd
        message := { text := "Failed to create class session: Database error: " ++ m
                     mtype := "error" }
        submitting := false
        inserts := [classData]
        redirect := none }
  | .ok [] =>
      { formData := fd
        message := { text := "Failed to create class session: No data returned from database after insert"
                     mtype := "error" }
        submitting := false
        inserts := [classData]
        redirect := none }
  | .ok (_ :: _) =>
      { formData := { fd with title := "", description := "", startDate := "",
                              startTime := "", endDate := "", endTime := "",
                              meetingLink := "" }
        message := { text := "Class session created successfully", mtype := "success" }
        submitting := false
        inserts := [classData]
        redirect := some "/dashboard/faculty/classes" }

/-- Lines 130-135 (end-after-start check) followed by the insert. -/
def afterParse (u : User) (fd : FormData) (iso : Int → String) (now : Int)
    (insert : ClassRow → InsertOutcome) (startMs endMs : Int) : SubmitResult :=
  if endMs ≤ startMs then
    { formData := fd
      message := { text := "End time must be after start time", mtype := "error" }
      submitting := false
      inserts := []
      redirect := none }
  else
    doInsert fd insert (buildClassData u fd iso now startMs endMs)

/-- Lines 97-187: the body of handleSubmit for a faculty user, from
setSubmitting(true) on.  The finally block on line 186 makes the final
submitting state false on every path through it. -/
def validateAndInsert (u : User) (fd : FormData)
    (parse : String → Option Int) (iso : Int → String) (now : Int)
    (insert : ClassRow → InsertOutcome) : SubmitResult :=
  if requiredMissing fd then
    { formData := fd
      message := { text := "Please fill in all required fields", mtype := "error" }
      submitting := false
      inserts := []
      redirect := none }
  else
    match parse (fd.startDate ++ "T" ++ fd.startTime),
          parse (fd.endDate ++ "T" ++ fd.endTime) with
    | some startMs, some endMs =>
        afterParse u fd iso now insert startMs endMs
    | _, _ =>
        { formData := fd
          message := { text := "Invalid date or time format", mtype := "error" }
          submitting := false
          inserts := []
          redirect := none }

/-- handleSubmit, lines 89-188.  The permission guard of lines 92-95
returns before setSubmitting(true), so on that branch the submitting
state is left as it was. -/
def handleSubmit (user : Option User) (st : SubmitState)
    (parse : String → Option Int) (iso : Int → String) (now : Int)
    (insert : ClassRow → InsertOutcome) : SubmitResult :=
  match user with
  | none =>
      { formData := st.formData
        message := { text := "You don't have permission to perform this action"
                     mtype := "error" }
        submitting := st.submitting
        inserts := []
        redirect := none }
  | some u =>
      if u.role = "faculty" then
        validateAndInsert u st.formData parse iso now insert
      else
        { formData := st.formData
          message := { text := "You don't have permission to perform this action"
                       mtype := "error" }
          submitting := st.submitting
          inserts := []
          redirect := none }

/-- A row of the first read query (`.select("course_id")` on
teaching_assignments, lines 40-43). -/
structure TaRow where
  course_id : String
deriving Repr, DecidableEq

/-- A row of the courses table (only the columns the page reads). -/
structure Course where
  id : String
  code : String
  title : String
deriving Repr, DecidableEq

/-- Outcome of a supabase read: an error object or a data list. -/
inductive QueryResult (α : Type) where
  | err (msg : String)
  | ok (data : List α)
deriving Repr, DecidableEq

/-- Descriptors of the read queries fetchCourses constructs.
`taSelect uid` is the query of lines 40-43: select course_id from
teaching_assignments where user_id = uid.  `coursesSelectOrderedByCode
ids` is the query of lines 59-63: select * from courses where id in ids,
ordered by the code column. -/
inductive ReadQuery where
  | taSelect (userId : String)
  | coursesSelectOrderedByCode (courseIds : List String)
deriving Repr, DecidableEq

/-- The remote store as seen by fetchCourses: each of the two query
shapes as an oracle from its filter arguments to its result. -/
structure Db where
  teachingAssignments : String → QueryResult TaRow
  coursesByIds : List String → QueryResult Course

/-- The component state read and written by fetchCourses.  `courseId` is
the formData.courseId field that line 69 overwrites. -/
structure FetchState where
  courses : List Course
  message : Message
  loading : Bool
  courseId : String
deriving Repr, DecidableEq

/-- Everything fetchCourses leaves behind: final state plus the read
queries it issued, in order. -/
structure FetchResult where
  courses : List Course
  message : Message
  loading : Bool
  courseId : String
  queries : List ReadQuery
deriving Repr, DecidableEq

/-- fetchCourses, lines 33-79.  The guard on line 34 returns before any
query; a query error is thrown (lines 45 and 65) into the catch of lines
73-75; the finally of lines 76-78 ends the loading state on every path
past the guard. -/
def fetchCourses (user : Option User) (db : Db) (st : FetchState) : FetchResult :=
  match user with
  | none =>
      { courses := st.courses, message := st.message, loading := st.loading
        courseId := st.courseId, queries := [] }
  | some u =>
      if u.role = "faculty" then
        match db.teachingAssignments u.id with
        | .err _ =>
            { courses := st.courses
              message := { text := "Failed to load courses. Please refresh the page.", mtype := "error" }
              loading := false, courseId := st.courseId
              queries := [.taSelect u.id] }
        | .ok [] =>
            { courses := st.courses
              message := { text := "You are not assigned to any courses. Please contact an administrator.", mtype := "error" }
              loading := false, courseId := st.courseId
              queries := [.taSelect u.id] }
        | .ok (a :: rest) =>
            let courseIds := (a :: rest).map (fun assignment => assignment.course_id)
            match db.coursesByIds courseIds with
            | .err _ =>
                { courses := st.courses
                  message := { text := "Failed to load courses. Please refresh the page.", mtype := "error" }
                  loading := false, courseId := st.courseId
                  queries := [.taSelect u.id, .coursesSelectOrderedByCode courseIds] }
            | .ok [] =>
                { courses := st.courses
                  message := { text := "No courses found. Please contact an administrator.", mtype := "error" }
                  loading := false, courseId := st.courseId
                  queries := [.taSelect u.id, .coursesSelectOrderedByCode courseIds] }
            | .ok (c :: cs) =>
                { courses := c :: cs
                  message := st.message
                  loading := false, courseId := c.id
                  queries := [.taSelect u.id, .coursesSelectOrderedByCode courseIds] }
      else
        { courses := st.courses, message := st.message, loading := st.loading
          courseId := st.courseId, queries := [] }

/-- The disabled condition of the submit button on line 362:
`submitting || courses.length === 0`. -/
def submitDisabled (submitting : Bool) (courses : List Course) : Bool :=
  submitting || courses.length == 0

/-! Concrete sample inputs used by the witnesses. -/

def sampleUser : User := { id := "u1", role := "faculty" }

def studentUser : User := { id := "u2", role := "student" }

def sampleParse : String → Option Int := fun s =>
  if s = "2024-01-01T10:00" then some 1000
  else if s = "2024-01-01T11:00" then some 2000
  else if s = "2024-01-01T09:00" then some 500
  else none

def sampleIso : Int → String := fun t => toString t

def sampleFd : FormData :=
  { courseId := "c1", title := "T", description := "",
    startDate := "2024-01-01", startTime := "10:00",
    endDate := "2024-01-01", endTime := "11:00", meetingLink := "" }

def lateFd : FormData := { sampleFd with endTime := "09:00" }

def emptyMessage : Message := { text := "", mtype := "" }

def sampleState : SubmitState :=
  { formData := sampleFd, message := emptyMessage, submitting := false }

def lateState : SubmitState :=
  { formData := lateFd, message := emptyMessage, submitting := false }

def insertEcho : ClassRow → InsertOutcome := fun r => .ok [r]

def insertBoom : ClassRow → InsertOutcome := fun _ => .err "boom"

def insertEmpty : ClassRow → InsertOutcome := fun _ => .ok []

/-- C1: with all required fields non-empty and both date-time strings
parsing, an end datetime less than or equal to the start datetime makes
handleSubmit set the message "End time must be after start time" and
issue no insert; an insert is issued only when end is strictly after
start. -/
theorem handleSubmit_end_not_after_start (u : User) (st : SubmitState)
    (parse : String → Option Int) (iso : Int → String) (now : Int)
    (insert : ClassRow → InsertOutcome) (startMs endMs : Int)
    (hrole : u.role = "faculty")
    (hc : st.formData.courseId ≠ "") (ht : st.formData.title ≠ "")
    (hsd : st.formData.startDate ≠ "") (hst : st.formData.startTime ≠ "")
    (hed : st.formData.endDate ≠ "") (het : st.formData.endTime ≠ "")
    (hps : parse (st.formData.startDate ++ "T" ++ st.formData.startTime) = some startMs)
    (hpe : parse (st.formData.endDate ++ "T" ++ st.formData.endTime) = some endMs) :
    (endMs ≤ startMs →
      (handleSubmit (some u) st parse iso now insert).message =
        { text := "End time must be after start time", mtype := "error" } ∧
      (handleSubmit (some u) st parse iso now insert).inserts = []) ∧
    ((handleSubmit (some u) st parse iso now insert).inserts ≠ [] → startMs < endMs) := by
  have hreq : requiredMissing st.formData = false := by
    simp [requiredMissing, hc, ht, hsd, hst, hed, het]
  by_cases hle : endMs ≤ startMs
  · refine ⟨fun _ => ?_, fun hne => ?_⟩
    · simp [handleSubmit, hrole, validateAndInsert, hreq, hps, hpe, afterParse, hle]
    · exfalso
      apply hne
      simp [handleSubmit, hrole, validateAndInsert, hreq, hps, hpe, afterParse, hle]
  · exact ⟨fun h => absurd h hle, fun _ => by omega⟩

theorem handleSubmit_end_not_after_start_witness :
    (handleSubmit (some sampleUser) lateState sampleParse sampleIso 0 insertEcho).message =
      { text := "End time must be after start time", mtype := "error" } ∧
    (handleSubmit (some sampleUser) lateState sampleParse sampleIso 0 insertEcho).inserts = [] :=
  (handleSubmit_end_not_after_start sampleUser lateState sampleParse sampleIso 0 insertEcho
    1000 500 rfl (by decide) (by decide) (by decide) (by decide) (by decide) (by decide)
    (by decide) (by decide)).1 (by decide)

/-- Helper: when the permission check and every validation of
handleSubmit pass, the run reduces to the insert step on the classData
row of lines 137-147. -/
theorem handleSubmit_valid_eq_doInsert (u : User) (st : SubmitState)
    (parse : String → Option Int) (iso : Int → String) (now : Int)
    (insert : ClassRow → InsertOutcome) (startMs endMs : Int)
    (hrole : u.role = "faculty")
    (hc : st.formData.courseId ≠ "") (ht : st.formData.title ≠ "")
    (hsd : st.formData.startDate ≠ "") (hst : st.formData.startTime ≠ "")
    (hed : st.formData.endDate ≠ "") (het : st.formData.endTime ≠ "")
    (hps : parse (st.formData.startDate ++ "T" ++ st.formData.startTime) = some startMs)
    (hpe : parse (st.formData.endDate ++ "T" ++ st.formData.endTime) = some endMs)
    (hlt : startMs < endMs) :
    handleSubmit (some u) st parse iso now insert =
      doInsert st.formData insert (buildClassData u st.formData iso now startMs endMs) := by
  have hreq : requiredMissing st.formData = false := by
    simp [requiredMissing, hc, ht, hsd, hst, hed, het]
  have hnle : ¬ endMs ≤ startMs := by omega
  simp [handleSubmit, hrole, validateAndInsert, hreq, hps, hpe, afterParse, hnle]

/-- Helper: every branch of the insert step issues exactly the one row
it was given (lines 150, and inserts on the three outcome branches). -/
theorem doInsert_inserts (fd : FormData) (insert : ClassRow → InsertOutcome)
    (cd : ClassRow) : (doInsert fd insert cd).inserts = [cd] := by
  unfold doInsert
  split <;> rfl

/-- C2: a submission passing the permission check and all validations
issues exactly one write query: an insert of the single classData row,
with the fields built from the form, the user and the parsed times. -/
theorem handleSubmit_single_insert (u : User) (st : SubmitState)
    (parse : String → Option Int) (iso : Int → String) (now : Int)
    (insert : ClassRow → InsertOutcome) (startMs endMs : Int)
    (hrole : u.role = "faculty")
    (hc : st.formData.courseId ≠ "") (ht : st.formData.title ≠ "")
    (hsd : st.formData.startDate ≠ "") (hst : st.formData.startTime ≠ "")
    (hed : st.formData.endDate ≠ "") (het : st.formData.endTime ≠ "")
    (hps : parse (st.formData.startDate ++ "T" ++ st.formData.startTime) = some startMs)
    (hpe : parse (st.formData.endDate ++ "T" ++ st.formData.endTime) = some endMs)
    (hlt : startMs < endMs) :
    (handleSubmit (some u) st parse iso now insert).inserts =
      [{ course_id := st.formData.courseId
         title := st.formData.title
         description := strOrNull st.formData.description
         start_time := iso startMs
         end_time := iso endMs
         meeting_link := strOrNull st.formData.meetingLink
         created_by := u.id
         reminder_sent := false
         updated_at := iso now }] := by
  rw [handleSubmit_valid_eq_doInsert u st parse iso now insert startMs endMs hrole
    hc ht hsd hst hed het hps hpe hlt]
  rw [doInsert_inserts]
  rfl

theorem handleSubmit_single_insert_witness :
    (handleSubmit (some sampleUser) sampleState sampleParse sampleIso 0 insertEcho).inserts =
      [{ course_id := sampleState.formData.courseId
         title := sampleState.formData.title
         description := strOrNull sampleState.formData.description
         start_time := sampleIso 1000
         end_time := sampleIso 2000
         meeting_link := strOrNull sampleState.formData.meetingLink
         created_by := sampleUser.id
         reminder_sent := false
         updated_at := sampleIso 0 }] :=
  handleSubmit_single_insert sampleUser sampleState sampleParse sampleIso 0 insertEcho
    1000 2000 rfl (by decide) (by decide) (by decide) (by decide) (by decide) (by decide)
    (by decide) (by decide) (by decide)

/-- C3: with no user or a non-faculty user, handleSubmit sets the
permission error message and returns with no insert, the form data and
the submitting flag untouched, and no redirect. -/
theorem handleSubmit_no_permission (user : Option User) (st : SubmitState)
    (parse : String → Option Int) (iso : Int → String) (now : Int)
    (insert : ClassRow → InsertOutcome)
    (h : ∀ u, user = some u → u.role ≠ "faculty") :
    handleSubmit user st parse iso now insert =
      { formData := st.formData
        message := { text := "You don't have permission to perform this action"
                     mtype := "error" }
        submitting := st.submitting
        inserts := []
        redirect := none } := by
  cases user with
  | none => rfl
  | some u => simp [handleSubmit, h u rfl]

theorem handleSubmit_no_permission_witness :
    handleSubmit (some studentUser) sampleState sampleParse sampleIso 0 insertEcho =
      { formData := sampleState.formData
        message := { text := "You don't have permission to perform this action"
                     mtype := "error" }
        submitting := sampleState.submitting
        inserts := []
        redirect := none } :=
  handleSubmit_no_permission (some studentUser) sampleState sampleParse sampleIso 0 insertEcho
    (fun u hu => by cases hu; decide)

/-- C4: a faculty submission with some required field empty gets the
message "Please fill in all required fields", a submitting flag reset to
false, and no insert. -/
theorem handleSubmit_missing_required (u : User) (st : SubmitState)
    (parse : String → Option Int) (iso : Int → String) (now : Int)
    (insert : ClassRow → InsertOutcome)
    (hrole : u.role = "faculty")
    (hmiss : st.formData.courseId = "" ∨ st.formData.title = "" ∨
      st.formData.startDate = "" ∨ st.formData.startTime = "" ∨
      st.formData.endDate = "" ∨ st.formData.endTime = "") :
    (handleSubmit (some u) st parse iso now insert).message =
      { text := "Please fill in all required fields", mtype := "error" } ∧
    (handleSubmit (some u) st parse iso now insert).submitting = false ∧
    (handleSubmit (some u) st parse iso now insert).inserts = [] := by
  have hreq : requiredMissing st.formData = true := by
    rcases hmiss with h | h | h | h | h | h <;> simp [requiredMissing, h]
  simp [handleSubmit, hrole, validateAndInsert, hreq]

theorem handleSubmit_missing_required_witness :
    (handleSubmit (some sampleUser)
        { formData := { sampleFd with title := "" }, message := emptyMessage,
          submitting := false }
        sampleParse sampleIso 0 insertEcho).message =
      { text := "Please fill in all required fields", mtype := "error" } ∧
    (handleSubmit (some sampleUser)
        { formData := { sampleFd with title := "" }, message := emptyMessage,
          submitting := false }
        sampleParse sampleIso 0 insertEcho).submitting = false ∧
    (handleSubmit (some sampleUser)
        { formData := { sampleFd with title := "" }, message := emptyMessage,
          submitting := false }
        sampleParse sampleIso 0 insertEcho).inserts = [] :=
  handleSubmit_missing_required sampleUser
    { formData := { sampleFd with title := "" }, message := emptyMessage,
      submitting := false }
    sampleParse sampleIso 0 insertEcho rfl (by decide)

def sampleRow : ClassRow :=
  { course_id := "c1", title := "T", description := none, start_time := "1000",
    end_time := "2000", meeting_link := none, created_by := "u1",
    reminder_sent := false, updated_at := "0" }

/-- C6: when the insert succeeds with at least one returned row,
handleSubmit sets the success message and redirects to
/dashboard/faculty/classes; a redirect is requested on no other path. -/
theorem handleSubmit_success_then_redirect (user : Option User) (st : SubmitState)
    (parse : String → Option Int) (iso : Int → String) (now : Int)
    (insert : ClassRow → InsertOutcome) :
    (∀ u startMs endMs r rs,
      user = some u → u.role = "faculty" →
      st.formData.courseId ≠ "" → st.formData.title ≠ "" →
      st.formData.startDate ≠ "" → st.formData.startTime ≠ "" →
      st.formData.endDate ≠ "" → st.formData.endTime ≠ "" →
      parse (st.formData.startDate ++ "T" ++ st.formData.startTime) = some startMs →
      parse (st.formData.endDate ++ "T" ++ st.formData.endTime) = some endMs →
      startMs < endMs →
      insert (buildClassData u st.formData iso now startMs endMs) = .ok (r :: rs) →
      (handleSubmit user st parse iso now insert).message =
        { text := "Class session created successfully", mtype := "success" } ∧
      (handleSubmit user st parse iso now insert).redirect =
        some "/dashboard/faculty/classes") ∧
    ((handleSubmit user st parse iso now insert).redirect ≠ none →
      (handleSubmit user st parse iso now insert).message =
        { text := "Class session created successfully", mtype := "success" }) := by
  constructor
  · rintro u startMs endMs r rs rfl hrole hc ht hsd hst hed het hps hpe hlt hins
    rw [handleSubmit_valid_eq_doInsert u st parse iso now insert startMs endMs hrole
      hc ht hsd hst hed het hps hpe hlt]
    simp only [doInsert]
    rw [hins]
    exact ⟨rfl, rfl⟩
  · unfold handleSubmit validateAndInsert afterParse doInsert
    repeat' split
    all_goals intro h
    all_goals first | rfl | simp at h

theorem handleSubmit_success_then_redirect_witness :
    (handleSubmit (some sampleUser) sampleState sampleParse sampleIso 0 insertEcho).message =
      { text := "Class session created successfully", mtype := "success" } ∧
    (handleSubmit (some sampleUser) sampleState sampleParse sampleIso 0 insertEcho).redirect =
      some "/dashboard/faculty/classes" :=
  (handleSubmit_success_then_redirect (some sampleUser) sampleState sampleParse sampleIso 0
      insertEcho).1 sampleUser 1000 2000 sampleRow [] rfl rfl (by decide) (by decide)
    (by decide) (by decide) (by decide) (by decide) (by decide) (by decide) (by decide)
    (by decide)

/-- C7: when the insert errors or returns no rows, handleSubmit only
sets an error message starting "Failed to create class session: ",
resets submitting to false, keeps the entered form data, and requests no
navigation. -/
theorem handleSubmit_insert_failure (u : User) (st : SubmitState)
    (parse : String → Option Int) (iso : Int → String) (now : Int)
    (insert : ClassRow → InsertOutcome) (startMs endMs : Int)
    (hrole : u.role = "faculty")
    (hc : st.formData.courseId ≠ "") (ht : st.formData.title ≠ "")
    (hsd : st.formData.startDate ≠ "") (hst : st.formData.startTime ≠ "")
    (hed : st.formData.endDate ≠ "") (het : st.formData.endTime ≠ "")
    (hps : parse (st.formData.startDate ++ "T" ++ st.formData.startTime) = some startMs)
    (hpe : parse (st.formData.endDate ++ "T" ++ st.formData.endTime) = some endMs)
    (hlt : startMs < endMs) :
    (∀ m, insert (buildClassData u st.formData iso now startMs endMs) = .err m →
      (handleSubmit (some u) st parse iso now insert).message =
        { text := "Failed to create class session: Database error: " ++ m
          mtype := "error" } ∧
      (handleSubmit (some u) st parse iso now insert).submitting = false ∧
      (handleSubmit (some u) st parse iso now insert).formData = st.formData ∧
      (handleSubmit (some u) st parse iso now insert).redirect = none) ∧
    (insert (buildClassData u st.formData iso now startMs endMs) = .ok [] →
      (handleSubmit (some u) st parse iso now insert).message =
        { text := "Failed to create class session: No data returned from database after insert"
          mtype := "error" } ∧
      (handleSubmit (some u) st parse iso now insert).submitting = false ∧
      (handleSubmit (some u) st parse iso now insert).formData = st.formData ∧
      (handleSubmit (some u) st parse iso now insert).redirect = none) := by
  rw [handleSubmit_valid_eq_doInsert u st parse iso now insert startMs endMs hrole
    hc ht hsd hst hed het hps hpe hlt]
  constructor
  · intro m hm
    simp only [doInsert]
    rw [hm]
    exact ⟨rfl, rfl, rfl, rfl⟩
  · intro hm
    simp only [doInsert]
    rw [hm]
    exact ⟨rfl, rfl, rfl, rfl⟩

theorem handleSubmit_insert_failure_witness :
    (handleSubmit (some sampleUser) sampleState sampleParse sampleIso 0 insertBoom).message =
      { text := "Failed to create class session: Database error: " ++ "boom"
        mtype := "error" } ∧
    (handleSubmit (some sampleUser) sampleState sampleParse sampleIso 0 insertBoom).submitting
      = false ∧
    (handleSubmit (some sampleUser) sampleState sampleParse sampleIso 0 insertBoom).formData =
      sampleState.formData ∧
    (handleSubmit (some sampleUser) sampleState sampleParse sampleIso 0 insertBoom).redirect =
      none :=
  (handleSubmit_insert_failure sampleUser sampleState sampleParse sampleIso 0 insertBoom
      1000 2000 rfl (by decide) (by decide) (by decide) (by decide) (by decide) (by decide)
      (by decide) (by decide) (by decide)).1 "boom" (by decide)

/-- C8: on a successful submission the form is reset with every field
except courseId set to the empty string, while courseId keeps its
submitted value. -/
theorem handleSubmit_success_form_reset (u : User) (st : SubmitState)
    (parse : String → Option Int) (iso : Int → String) (now : Int)
    (insert : ClassRow → InsertOutcome) (startMs endMs : Int) (r : ClassRow)
    (rs : List ClassRow)
    (hrole : u.role = "faculty")
    (hc : st.formData.courseId ≠ "") (ht : st.formData.title ≠ "")
    (hsd : st.formData.startDate ≠ "") (hst : st.formData.startTime ≠ "")
    (hed : st.formData.endDate ≠ "") (het : st.formData.endTime ≠ "")
    (hps : parse (st.formData.startDate ++ "T" ++ st.formData.startTime) = some startMs)
    (hpe : parse (st.formData.endDate ++ "T" ++ st.formData.endTime) = some endMs)
    (hlt : startMs < endMs)
    (hins : insert (buildClassData u st.formData iso now startMs endMs) = .ok (r :: rs)) :
    (handleSubmit (some u) st parse iso now insert).formData =
      { courseId := st.formData.courseId, title := "", description := "",
        startDate := "", startTime := "", endDate := "", endTime := "",
        meetingLink := "" } := by
  rw [handleSubmit_valid_eq_doInsert u st parse iso now insert startMs endMs hrole
    hc ht hsd hst hed het hps hpe hlt]
  simp only [doInsert]
  rw [hins]

theorem handleSubmit_success_form_reset_witness :
    (handleSubmit (some sampleUser) sampleState sampleParse sampleIso 0 insertEcho).formData =
      { courseId := sampleState.formData.courseId, title := "", description := "",
        startDate := "", startTime := "", endDate := "", endTime := "",
        meetingLink := "" } :=
  handleSubmit_success_form_reset sampleUser sampleState sampleParse sampleIso 0 insertEcho
    1000 2000 sampleRow [] rfl (by decide) (by decide) (by decide) (by decide) (by decide)
    (by decide) (by decide) (by decide) (by decide) (by decide)

/-- C9: in the inserted row, description and meeting_link are null when
the corresponding form field is empty, and are never the empty string. -/
theorem handleSubmit_optional_fields_null (u : User) (st : SubmitState)
    (parse : String → Option Int) (iso : Int → String) (now : Int)
    (insert : ClassRow → InsertOutcome) (startMs endMs : Int)
    (hrole : u.role = "faculty")
    (hc : st.formData.courseId ≠ "") (ht : st.formData.title ≠ "")
    (hsd : st.formData.startDate ≠ "") (hst : st.formData.startTime ≠ "")
    (hed : st.formData.endDate ≠ "") (het : st.formData.endTime ≠ "")
    (hps : parse (st.formData.startDate ++ "T" ++ st.formData.startTime) = some startMs)
    (hpe : parse (st.formData.endDate ++ "T" ++ st.formData.endTime) = some endMs)
    (hlt : startMs < endMs) :
    ∀ r ∈ (handleSubmit (some u) st parse iso now insert).inserts,
      (st.formData.description = "" → r.description = none) ∧
      (st.formData.meetingLink = "" → r.meeting_link = none) ∧
      r.description ≠ some "" ∧ r.meeting_link ≠ some "" := by
  intro r hr
  rw [handleSubmit_valid_eq_doInsert u st parse iso now insert startMs endMs hrole
    hc ht hsd hst hed het hps hpe hlt, doInsert_inserts] at hr
  simp only [List.mem_singleton] at hr
  subst hr
  refine ⟨fun h => ?_, fun h => ?_, ?_, ?_⟩
  · simp [buildClassData, strOrNull, h]
  · simp [buildClassData, strOrNull, h]
  · by_cases hd : st.formData.description = "" <;> simp [buildClassData, strOrNull, hd]
  · by_cases hm : st.formData.meetingLink = "" <;> simp [buildClassData, strOrNull, hm]

theorem handleSubmit_optional_fields_null_witness :
    sampleRow.description = none ∧ sampleRow.meeting_link = none :=
  ⟨(handleSubmit_optional_fields_null sampleUser sampleState sampleParse sampleIso 0 insertEcho
      1000 2000 rfl (by decide) (by decide) (by decide) (by decide) (by decide) (by decide)
      (by decide) (by decide) (by decide) sampleRow (by decide)).1 rfl,
   (handleSubmit_optional_fields_null sampleUser sampleState sampleParse sampleIso 0 insertEcho
      1000 2000 rfl (by decide) (by decide) (by decide) (by decide) (by decide) (by decide)
      (by decide) (by decide) (by decide) sampleRow (by decide)).2.1 rfl⟩

def course1 : Course := { id := "c1", code := "CSE471", title := "Systems Analysis" }

def course2 : Course := { id := "c2", code := "CSE472", title := "Software Project" }

def taRow1 : TaRow := { course_id := "c1" }

def taRow2 : TaRow := { course_id := "c2" }

def sampleDb : Db :=
  { teachingAssignments := fun uid => if uid = "u1" then .ok [taRow1, taRow2] else .ok []
    coursesByIds := fun ids => if ids = ["c1", "c2"] then .ok [course1, course2] else .ok [] }

def emptyDb : Db :=
  { teachingAssignments := fun _ => .ok [], coursesByIds := fun _ => .ok [] }

def initFetchState : FetchState :=
  { courses := [], message := emptyMessage, loading := true, courseId := "" }

/-- C5: for a faculty user, fetchCourses issues the teaching_assignments
select first and, only when its result is non-empty, the courses select
restricted to the returned course ids and ordered by code; the courses
state is set only from the second query result. -/
theorem fetchCourses_two_reads (u : User) (db : Db) (st : FetchState)
    (hrole : u.role = "faculty") :
    (∀ a rest, db.teachingAssignments u.id = .ok (a :: rest) →
      (fetchCourses (some u) db st).queries =
        [.taSelect u.id,
         .coursesSelectOrderedByCode ((a :: rest).map (fun assignment => assignment.course_id))]) ∧
    (db.teachingAssignments u.id = .ok [] →
      (fetchCourses (some u) db st).queries = [.taSelect u.id]) ∧
    (∀ a rest c cs, db.teachingAssignments u.id = .ok (a :: rest) →
      db.coursesByIds ((a :: rest).map (fun assignment => assignment.course_id)) = .ok (c :: cs) →
      (fetchCourses (some u) db st).courses = c :: cs) ∧
    ((fetchCourses (some u) db st).courses ≠ st.courses →
      ∃ ids c cs, db.coursesByIds ids = .ok (c :: cs) ∧
        (fetchCourses (some u) db st).courses = c :: cs) := by
  refine ⟨?_, ?_, ?_, ?_⟩
  · intro a rest hta
    rcases hcs : db.coursesByIds ((a :: rest).map (fun assignment => assignment.course_id))
      with m | (_ | ⟨c, cs⟩) <;>
      simp only [List.map_cons] at hcs <;>
      simp [fetchCourses, hrole, hta, hcs]
  · intro hta
    simp [fetchCourses, hrole, hta]
  · intro a rest c cs hta hcs
    simp only [List.map_cons] at hcs
    simp [fetchCourses, hrole, hta, hcs]
  · intro hne
    rcases hta : db.teachingAssignments u.id with m | (_ | ⟨a, rest⟩)
    · exfalso; apply hne; simp [fetchCourses, hrole, hta]
    · exfalso; apply hne; simp [fetchCourses, hrole, hta]
    · rcases hcs : db.coursesByIds ((a :: rest).map (fun assignment => assignment.course_id))
        with m | (_ | ⟨c, cs⟩) <;>
        simp only [List.map_cons] at hcs
      · exfalso; apply hne; simp [fetchCourses, hrole, hta, hcs]
      · exfalso; apply hne; simp [fetchCourses, hrole, hta, hcs]
      · exact ⟨a.course_id :: rest.map (fun assignment => assignment.course_id), c, cs, hcs,
          by simp [fetchCourses, hrole, hta, hcs]⟩

theorem fetchCourses_two_reads_witness :
    (fetchCourses (some sampleUser) sampleDb initFetchState).queries =
      [.taSelect sampleUser.id,
       .coursesSelectOrderedByCode
         (([taRow1, taRow2] : List TaRow).map (fun assignment => assignment.course_id))] ∧
    (fetchCourses (some sampleUser) sampleDb initFetchState).courses = [course1, course2] :=
  ⟨(fetchCourses_two_reads sampleUser sampleDb initFetchState rfl).1 taRow1 [taRow2]
      (by decide),
   (fetchCourses_two_reads sampleUser sampleDb initFetchState rfl).2.2.1 taRow1 [taRow2]
      course1 [course2] (by decide) (by decide)⟩

/-- C10: for a faculty user whose teaching_assignments query returns an
empty list, fetchCourses sets the not-assigned error message, issues no
second read, leaves the courses state as it was (empty initially), ends
the loading state, and with an empty courses list the submit button is
disabled. -/
theorem fetchCourses_no_assignments (u : User) (db : Db) (st : FetchState)
    (hrole : u.role = "faculty")
    (hta : db.teachingAssignments u.id = .ok []) :
    (fetchCourses (some u) db st).message =
      { text := "You are not assigned to any courses. Please contact an administrator."
        mtype := "error" } ∧
    (fetchCourses (some u) db st).queries = [.taSelect u.id] ∧
    (fetchCourses (some u) db st).courses = st.courses ∧
    (fetchCourses (some u) db st).loading = false ∧
    (st.courses = [] → ∀ b, submitDisabled b (fetchCourses (some u) db st).courses = true) := by
  refine ⟨?_, ?_, ?_, ?_, ?_⟩ <;>
    simp [fetchCourses, hrole, hta, submitDisabled]

theorem fetchCourses_no_assignments_witness :
    (fetchCourses (some sampleUser) emptyDb initFetchState).message =
      { text := "You are not assigned to any courses. Please contact an administrator."
        mtype := "error" } ∧
    (fetchCourses (some sampleUser) emptyDb initFetchState).queries =
      [.taSelect sampleUser.id] ∧
    (fetchCourses (some sampleUser) emptyDb initFetchState).courses =
      initFetchState.courses ∧
    (fetchCourses (some sampleUser) emptyDb initFetchState).loading = false ∧
    (initFetchState.courses = [] →
      ∀ b, submitDisabled b (fetchCourses (some sampleUser) emptyDb initFetchState).courses
        = true) :=
  fetchCourses_no_assignments sampleUser emptyDb initFetchState rfl (by decide)
